import Mathlib

/-!
Shallow embedding of the SF2 decoder of this repository (the TypeScript
parser in part_000 and the legacy ES6 `Parser` class in part_001), together
with theorems settling the frozen claims about it.

Byte buffers (`Uint8Array`) are modelled as functions `Nat → Nat`; the
reader `byteAt` reduces every stored value modulo 256, which is exactly the
invariant a `Uint8Array` gives its reads.
-/

/-- Read one byte of the input buffer, as a `Uint8Array` read does. -/
def byteAt (data : Nat → Nat) (i : Nat) : Nat := data i % 256

/-- Build a buffer from a concrete list of bytes (reads past the end give 0). -/
def dataOf (l : List Nat) : Nat → Nat := fun i => l.getD i 0

/-- Little-endian 16-bit unsigned read, source expression
    data[ip] | (data[ip + 1] << 8). -/
def readU16 (data : Nat → Nat) (i : Nat) : Nat :=
  byteAt data i ||| (byteAt data (i + 1) <<< 8)

/-- Little-endian 32-bit unsigned read, source expression
    (data[ip] | (data[ip+1] << 8) | (data[ip+2] << 16) | (data[ip+3] << 24)) >>> 0.
    On byte inputs the result is already non-negative, so the >>> 0 is the
    identity here. -/
def readU32 (data : Nat → Nat) (i : Nat) : Nat :=
  byteAt data i ||| (byteAt data (i + 1) <<< 8) |||
    (byteAt data (i + 2) <<< 16) ||| (byteAt data (i + 3) <<< 24)

/-- Signed 16-bit value assembled from the two bytes lo, hi; the source
    computes it as data[ip] | (data[ip + 1] << 8) << 16 >> 16, which for
    byte inputs is the two-complement 16-bit reading below. -/
def signed16 (lo hi : Nat) : Int :=
  if hi % 256 < 128 then ((hi % 256) * 256 + lo % 256 : Int)
  else ((hi % 256) * 256 + lo % 256 : Int) - 65536

/-- Signed 8-bit value, source expression (data[ip] << 24) >> 24. -/
def signed8 (b : Nat) : Int :=
  if b % 256 < 128 then (b % 256 : Int) else (b % 256 : Int) - 256

/-- Characters of the raw bytes, as String.fromCharCode builds them. -/
def bytesToString (l : List Nat) : String := String.mk (l.map Char.ofNat)

/-- Drop the trailing NUL padding of a fixed-width name field. -/
def stripTrailingZeros (l : List Nat) : List Nat :=
  (l.reverse.dropWhile (· == 0)).reverse

/-- Modelled from the spec: readString.ts is not under src; per §4.1 it reads
    n bytes as characters and trims trailing NUL bytes. -/
def readStringTrim (data : Nat → Nat) (ip n : Nat) : String :=
  bytesToString (stripTrailingZeros ((List.range n).map (fun k => byteAt data (ip + k))))

/-- part_001 reads names as String.fromCharCode over the raw bytes, keeping
    the NUL padding. -/
def sfString (data : Nat → Nat) (ip n : Nat) : String :=
  bytesToString ((List.range n).map (fun k => byteAt data (ip + k)))

/-- The GeneratorEnumeratorTable of part_001, a sparse JS array literal:
    holes of the literal (indices 14, 18, 19, 20, 42, 49, 55) are `none`,
    matching the undefined a JS read of a hole yields. The literal has 60
    entries, so index 59 is the endOper terminator and every read at 60 or
    above also yields undefined. -/
def generatorEnumeratorTable : List (Option String) := [
  some "startAddrsOffset", some "endAddrsOffset", some "startloopAddrsOffset",
  some "endloopAddrsOffset", some "startAddrsCoarseOffset", some "modLfoToPitch",
  some "vibLfoToPitch", some "modEnvToPitch", some "initialFilterFc",
  some "initialFilterQ", some "modLfoToFilterFc", some "modEnvToFilterFc",
  some "endAddrsCoarseOffset", some "modLfoToVolume", none,
  some "chorusEffectsSend", some "reverbEffectsSend", some "pan",
  none, none, none,
  some "delayModLFO", some "freqModLFO", some "delayVibLFO", some "freqVibLFO",
  some "delayModEnv", some "attackModEnv", some "holdModEnv", some "decayModEnv",
  some "sustainModEnv", some "releaseModEnv", some "keynumToModEnvHold",
  some "keynumToModEnvDecay", some "delayVolEnv", some "attackVolEnv",
  some "holdVolEnv", some "decayVolEnv", some "sustainVolEnv", some "releaseVolEnv",
  some "keynumToVolEnvHold", some "keynumToVolEnvDecay", some "instrument",
  none,
  some "keyRange", some "velRange", some "startloopAddrsCoarseOffset",
  some "keynum", some "velocity", some "initialAttenuation", none,
  some "endloopAddrsCoarseOffset", some "coarseTune", some "fineTune",
  some "sampleID", some "sampleModes", none,
  some "scaleTuning", some "exclusiveClass", some "overridingRootKey",
  some "endOper"]

/-- JS read this.GeneratorEnumeratorTable[code]: a hole or an out-of-range
    index yields undefined, modelled as `none`. -/
def GeneratorEnumeratorTable (code : Nat) : Option String :=
  generatorEnumeratorTable.getD code none

/-- The indices of the holes of the table literal. -/
def generatorGaps : List Nat := [14, 18, 19, 20, 42, 49, 55]

/-- Value part of a decoded generator or modulator record: a lo/hi byte pair
    for the range-shaped generators, a signed 16-bit amount for the other
    known names, or the raw tuple kept for an unrecognized code. -/
inductive GenValue where
  | range (lo hi : Nat)
  | amount (a : Int)
  | raw (code : Nat) (amount : Int) (lo hi : Nat)
deriving DecidableEq, Repr

/-- A decoded record as part_001 pushes it: the type field is the table
    lookup itself, hence `none` (JS undefined) for an unrecognized code. -/
structure GenRecord where
  type : Option String
  value : GenValue
deriving DecidableEq, Repr

/-- One iteration of parseGenerator in part_001: look the 2-byte code up in
    the table; undefined keeps the raw tuple, the four range-shaped names
    take the two bytes as lo/hi, every other known name takes the signed
    16-bit amount. -/
def decodeGenerator (code lo hi : Nat) : GenRecord :=
  match GeneratorEnumeratorTable code with
  | none => { type := none, value := .raw code (signed16 lo hi) lo hi }
  | some key =>
    if key = "keynum" ∨ key = "keyRange" ∨ key = "velRange" ∨ key = "velocity" then
      { type := some key, value := .range lo hi }
    else
      { type := some key, value := .amount (signed16 lo hi) }

/-- One 4-byte generator record read from the buffer, as the loop body of
    parseGenerator does it: code = data[ip] | (data[ip+1] << 8), then the
    two amount bytes. -/
def parseGenRecord (data : Nat → Nat) (ip : Nat) : GenRecord :=
  decodeGenerator (byteAt data ip ||| (byteAt data (ip + 1) <<< 8))
    (byteAt data (ip + 2)) (byteAt data (ip + 3))

/-- Table entries exist exactly at the non-hole indices below 60. -/
theorem tableSome : ∀ c, c < 60 → c ∉ generatorGaps →
    (GeneratorEnumeratorTable c).isSome := by decide

/-- Table holes read as undefined. -/
theorem tableNoneGaps : ∀ c ∈ generatorGaps, GeneratorEnumeratorTable c = none := by
  decide

/-- Reads at or past the end of the 60-entry literal yield undefined. -/
theorem tableNoneHigh : ∀ c, 60 ≤ c → GeneratorEnumeratorTable c = none := by
  intro c hc
  unfold GeneratorEnumeratorTable
  have hlen : generatorEnumeratorTable.length = 60 := by decide
  have : generatorEnumeratorTable.get? c = none := by
    rw [List.get?_eq_none]
    omega
  unfold List.getD
  rw [this]
  rfl

/-- C1 counterexample: the claim lists 43 among the table gaps and omits 42,
    but in the code 42 is the hole after instrument (it decodes to the raw
    tuple, not to a known name) while 43 decodes to keyRange. -/
theorem generator_gap_claim_counterexample :
    decodeGenerator 42 0 0 = { type := none, value := .raw 42 0 0 0 } ∧
    decodeGenerator 43 5 9 = { type := some "keyRange", value := .range 5 9 } ∧
    42 < 60 ∧ 42 ∉ [14, 18, 19, 20, 43, 49, 55] := by decide

/-- C1 (amended): generator decode is total over every code: each code below
    60 outside the actual gaps 14, 18, 19, 20, 42, 49, 55 decodes to a known
    canonical name with its shape (lo/hi pair for keynum, keyRange, velRange,
    velocity; signed 16-bit amount otherwise), and every other code (the
    gaps and every code at 60 or above) decodes to the raw tuple record with
    an undefined type. -/
theorem generator_decode_total_amended (code lo hi : Nat) :
    (code < 60 ∧ code ∉ generatorGaps →
      ∃ name, GeneratorEnumeratorTable code = some name ∧
        (decodeGenerator code lo hi).type = some name ∧
        (decodeGenerator code lo hi).value =
          (if name = "keynum" ∨ name = "keyRange" ∨ name = "velRange" ∨ name = "velocity"
           then GenValue.range lo hi else GenValue.amount (signed16 lo hi))) ∧
    (¬(code < 60 ∧ code ∉ generatorGaps) →
      decodeGenerator code lo hi =
        { type := none, value := .raw code (signed16 lo hi) lo hi }) := by
  constructor
  · rintro ⟨hlt, hgap⟩
    have hs := tableSome code hlt hgap
    obtain ⟨name, hname⟩ : ∃ n, GeneratorEnumeratorTable code = some n := by
      cases htab : GeneratorEnumeratorTable code
      · rw [htab] at hs; simp at hs
      · exact ⟨_, rfl⟩
    refine ⟨name, hname, ?_, ?_⟩
    · unfold decodeGenerator
      rw [hname]
      by_cases hc : name = "keynum" ∨ name = "keyRange" ∨ name = "velRange" ∨ name = "velocity" <;>
        simp [hc]
    · unfold decodeGenerator
      rw [hname]
      by_cases hc : name = "keynum" ∨ name = "keyRange" ∨ name = "velRange" ∨ name = "velocity" <;>
        simp [hc]
  · intro h
    have htab : GeneratorEnumeratorTable code = none := by
      rcases Nat.lt_or_ge code 60 with hlt | hge
      · have hg : code ∈ generatorGaps := by
          by_contra hgg
          exact h ⟨hlt, hgg⟩
        exact tableNoneGaps code hg
      · exact tableNoneHigh code hge
    unfold decodeGenerator
    rw [htab]

/-- Witness for the amended C1 theorem at the concrete codes 43 and 60. -/
theorem generator_decode_total_amended_witness :
    (decodeGenerator 43 0 127).type = some "keyRange" ∧
    decodeGenerator 60 1 2 = { type := none, value := .raw 60 (signed16 1 2) 1 2 } := by
  refine ⟨?_, (generator_decode_total_amended 60 1 2).2 (by decide)⟩
  obtain ⟨name, h1, h2, _⟩ := (generator_decode_total_amended 43 0 127).1 (by decide)
  have h4 : GeneratorEnumeratorTable 43 = some "keyRange" := by decide
  have hn : name = "keyRange" := Option.some.inj (h1.symm.trans h4)
  rw [h2, hn]

/-- C6: the record for the unknown code 61 with amount bytes 1, 2 carries
    the raw tuple with the signed 16-bit amount 513 and the two bytes, but
    its type field is JS undefined (the raw table lookup), not the string
    "unknown" the claim states: the table lookup is stored unchanged. -/
theorem unknown_code61_decode_eval :
    parseGenRecord (dataOf [61, 0, 1, 2]) 0 =
      { type := none, value := .raw 61 513 1 2 } ∧
    (parseGenRecord (dataOf [61, 0, 1, 2]) 0).type ≠ some "unknown" := by decide

/-- The record-iteration pattern of parseChunk (part_000) and of the pdta
    loops of part_001: read fixed-width records from the chunk start until
    the declared end offset is reached. The fuel size - ip bounds the number
    of iterations, since every record decoder advances by its positive fixed
    width; decode_loops_terminate proves that bound adequate. -/
def parseRecordsAux {α : Type} (data : Nat → Nat) (parse1 : (Nat → Nat) → Nat → α)
    (w size : Nat) : Nat → Nat → List α
  | 0, _ => []
  | fuel + 1, ip =>
    if ip < size then parse1 data ip :: parseRecordsAux data parse1 w size fuel (ip + w)
    else []

/-- parseChunk of part_000: iterate the factory over the chunk range. -/
def parseRecords {α : Type} (data : Nat → Nat) (parse1 : (Nat → Nat) → Nat → α)
    (w ip size : Nat) : List α :=
  parseRecordsAux data parse1 w size (size - ip) ip

/-- A phdr record, as both implementations lay it out. -/
structure PresetHeader where
  presetName : String
  preset : Nat
  bank : Nat
  presetBagIndex : Nat
  library : Nat
  genre : Nat
  morphology : Nat
deriving DecidableEq, Repr

/-- Modelled from the spec: Structs.PresetHeader.parse is not under src; a
    phdr record is 38 bytes, a 20 byte NUL padded trimmed name followed by
    u16 preset, u16 bank, u16 presetBagIndex and the three reserved u32
    fields library, genre, morphology. -/
def PresetHeader.parse (data : Nat → Nat) (ip : Nat) : PresetHeader :=
  { presetName := readStringTrim data ip 20
    preset := readU16 data (ip + 20)
    bank := readU16 data (ip + 22)
    presetBagIndex := readU16 data (ip + 24)
    library := readU32 data (ip + 26)
    genre := readU32 data (ip + 30)
    morphology := readU32 data (ip + 34) }

/-- An inst record. -/
structure Instrument where
  instrumentName : String
  instrumentBagIndex : Nat
deriving DecidableEq, Repr

/-- Modelled from the spec: Structs.Instrument.parse is not under src; an
    inst record is 22 bytes, a 20 byte trimmed name then u16
    instrumentBagIndex. -/
def Instrument.parse (data : Nat → Nat) (ip : Nat) : Instrument :=
  { instrumentName := readStringTrim data ip 20
    instrumentBagIndex := readU16 data (ip + 20) }

/-- A shdr record as the parse result exposes it: loop points are Int since
    the rebase subtracts start. -/
structure SampleHeader where
  sampleName : String
  start : Nat
  end_ : Nat
  startLoop : Int
  endLoop : Int
  sampleRate : Nat
  originalPitch : Nat
  pitchCorrection : Int
  sampleLink : Nat
  sampleType : Nat
deriving DecidableEq, Repr

/-- Modelled from the spec: Structs.SampleHeader.parse is not under src; a
    shdr record is 46 bytes, a 20 byte trimmed name, the four u32 offsets
    (with startLoop and endLoop rebased relative to start per §3), u32
    sampleRate, u8 originalPitch, signed byte pitchCorrection, u16
    sampleLink and u16 sampleType. -/
def SampleHeader.parse (data : Nat → Nat) (ip : Nat) : SampleHeader :=
  { sampleName := readStringTrim data ip 20
    start := readU32 data (ip + 20)
    end_ := readU32 data (ip + 24)
    startLoop := (readU32 data (ip + 28) : Int) - (readU32 data (ip + 20) : Int)
    endLoop := (readU32 data (ip + 32) : Int) - (readU32 data (ip + 20) : Int)
    sampleRate := readU32 data (ip + 36)
    originalPitch := byteAt data (ip + 40)
    pitchCorrection := signed8 (byteAt data (ip + 41))
    sampleLink := readU16 data (ip + 42)
    sampleType := readU16 data (ip + 44) }

/-- parsePhdr of part_000: decode every 38-byte record of the chunk, then
    drop every record named EOP. -/
def parsePhdr (data : Nat → Nat) (ip size : Nat) : List PresetHeader :=
  (parseRecords data PresetHeader.parse 38 ip size).filter
    (fun p => p.presetName != "EOP")

/-- parseInst of part_000: 22-byte records, records named EOI dropped. -/
def parseInst (data : Nat → Nat) (ip size : Nat) : List Instrument :=
  (parseRecords data Instrument.parse 22 ip size).filter
    (fun i => i.instrumentName != "EOI")

/-- parseShdr of part_000: 46-byte records, records named EOS dropped. -/
def parseShdr (data : Nat → Nat) (ip size : Nat) : List SampleHeader :=
  (parseRecords data SampleHeader.parse 46 ip size).filter
    (fun s => s.sampleName != "EOS")

/-- The part_000 parse path only: whatever the chunk holds, no record named
    EOP, EOI or EOS survives its filters into the returned presetHeader,
    instrument and sampleHeader arrays; the legacy part_001 decoder has no
    such filter, see sentinel_record_retained_part001 below. -/
theorem sentinel_records_filtered (data : Nat → Nat) (ip size : Nat) :
    (∀ p ∈ parsePhdr data ip size, p.presetName ≠ "EOP") ∧
    (∀ i ∈ parseInst data ip size, i.instrumentName ≠ "EOI") ∧
    (∀ s ∈ parseShdr data ip size, s.sampleName ≠ "EOS") := by
  refine ⟨?_, ?_, ?_⟩ <;>
    · intro x hx
      have h := (List.mem_filter.mp hx).2
      simpa using h

/-- The part_000 filter at a concrete chunk holding one real record and the
    EOP sentinel: only the real record survives. -/
theorem sentinel_records_filtered_witness :
    ({ presetName := "A", preset := 1, bank := 0, presetBagIndex := 0,
       library := 0, genre := 0, morphology := 0 } : PresetHeader).presetName ≠ "EOP" :=
  (sentinel_records_filtered
      (dataOf ((65 :: List.replicate 19 0) ++ [1, 0] ++ List.replicate 16 0 ++
        ([69, 79, 80] ++ List.replicate 17 0) ++ List.replicate 18 0)) 0 76).1
    _ (by decide)

/-- One iteration of the parsePhdr while loop of part_001 (lines 279-289):
    push the record with its name kept as the raw 20 characters (NUL
    padding included) and the six numeric fields. -/
def parsePhdrRecord001 (data : Nat → Nat) (ip : Nat) : PresetHeader :=
  { presetName := sfString data ip 20
    preset := readU16 data (ip + 20)
    bank := readU16 data (ip + 22)
    presetBagIndex := readU16 data (ip + 24)
    library := readU32 data (ip + 26)
    genre := readU32 data (ip + 30)
    morphology := readU32 data (ip + 34) }

/-- parsePhdr of part_001: iterate the 38-byte records to the chunk end and
    push every one of them into this.presetHeader; no filter exists anywhere
    in part_001, so the EOP sentinel stays in the returned array. -/
def parsePhdr001 (data : Nat → Nat) (ip size : Nat) : List PresetHeader :=
  parseRecords data parsePhdrRecord001 38 ip size

/-- A 76-byte phdr chunk: one real record named A with preset number 1,
    followed by the terminal EOP sentinel record. -/
def phdrChunkBytes : List Nat :=
  (65 :: List.replicate 19 0) ++ [1, 0] ++ List.replicate 16 0 ++
    ([69, 79, 80] ++ List.replicate 17 0) ++ List.replicate 18 0

/-- C2 at its failing input: decoding a phdr chunk that ends with the EOP
    sentinel, the legacy part_001 parsePhdr returns both records, the
    decoded sentinel included (its name is the raw EOP plus NUL padding),
    while the part_000 parsePhdr filter drops it: the claim that the
    returned presetHeader array never contains the sentinel record fails on
    the cited part_001 decoder. -/
theorem sentinel_record_retained_part001 :
    parsePhdr001 (dataOf phdrChunkBytes) 0 76 =
      [ { presetName := bytesToString (65 :: List.replicate 19 0), preset := 1,
          bank := 0, presetBagIndex := 0, library := 0, genre := 0, morphology := 0 },
        { presetName := bytesToString ([69, 79, 80] ++ List.replicate 17 0), preset := 0,
          bank := 0, presetBagIndex := 0, library := 0, genre := 0, morphology := 0 } ] ∧
    parsePhdr (dataOf phdrChunkBytes) 0 76 =
      [ { presetName := "A", preset := 1, bank := 0, presetBagIndex := 0,
          library := 0, genre := 0, morphology := 0 } ] := by decide

/-- Nearest-neighbour doubling of one buffer pass of adjustSampleData: every
    sample is written twice consecutively into a buffer of twice the length. -/
def dupEach : List Int → List Int
  | [] => []
  | x :: xs => x :: x :: dupEach xs

/-- The while loop of adjustSampleData, fuel-indexed: while the rate is below
    the threshold, duplicate the buffer and double rate and multiply. The
    callers pass fuel threshold - sampleRate, which decode_loops_terminate
    proves large enough whenever sampleRate is positive; the source loop
    would not terminate at sampleRate 0, which both call sites guard out
    with sampleRate > 0. -/
def adjustLoop : List Int → Nat → Nat → Nat → List Int × Nat
  | sample, _, _, 0 => (sample, 1)
  | sample, sampleRate, threshold, fuel + 1 =>
    if sampleRate < threshold then
      let r := adjustLoop (dupEach sample) (sampleRate * 2) threshold fuel
      (r.1, r.2 * 2)
    else (sample, 1)

/-- adjustSampleData of both implementations; part_000 hardcodes the
    threshold 22050, part_001 reads it from this.sampleRate (default 22050).
    Returns the resampled buffer and the accumulated multiply factor. -/
def adjustSampleData (sample : List Int) (sampleRate threshold : Nat) : List Int × Nat :=
  adjustLoop sample sampleRate threshold (threshold - sampleRate)

/-- The Int16Array slice new Int16Array(new Uint8Array(data.subarray(off +
    start * 2, off + end * 2)).buffer): consecutive little-endian signed
    16-bit values. -/
def sampleSlice (data : Nat → Nat) (off start end_ : Nat) : List Int :=
  (List.range (end_ - start)).map
    (fun k => signed16 (byteAt data (off + 2 * start + 2 * k))
      (byteAt data (off + 2 * start + 2 * k + 1)))

/-- One iteration of the parseShdr while loop of part_001: read the 46-byte
    record, slice the sample, rebase startLoop and endLoop by subtracting
    start, then if sampleRate > 0 run adjustSampleData and multiply
    sampleRate and both loop points by its factor. Returns the pushed
    header and the pushed sample buffer. -/
def parseShdrRecord (data : Nat → Nat) (samplingDataOffset threshold ip : Nat) :
    SampleHeader × List Int :=
  let start := readU32 data (ip + 20)
  let end_ := readU32 data (ip + 24)
  let sampleRate := readU32 data (ip + 36)
  let sample := sampleSlice data samplingDataOffset start end_
  let startLoop : Int := (readU32 data (ip + 28) : Int) - (start : Int)
  let endLoop : Int := (readU32 data (ip + 32) : Int) - (start : Int)
  if 0 < sampleRate then
    let adjust := adjustSampleData sample sampleRate threshold
    ({ sampleName := sfString data ip 20, start := start, end_ := end_,
       startLoop := startLoop * (adjust.2 : Int),
       endLoop := endLoop * (adjust.2 : Int),
       sampleRate := sampleRate * adjust.2,
       originalPitch := byteAt data (ip + 40),
       pitchCorrection := signed8 (byteAt data (ip + 41)),
       sampleLink := readU16 data (ip + 42),
       sampleType := readU16 data (ip + 44) }, adjust.1)
  else
    ({ sampleName := sfString data ip 20, start := start, end_ := end_,
       startLoop := startLoop, endLoop := endLoop,
       sampleRate := sampleRate,
       originalPitch := byteAt data (ip + 40),
       pitchCorrection := signed8 (byteAt data (ip + 41)),
       sampleLink := readU16 data (ip + 42),
       sampleType := readU16 data (ip + 44) }, sample)

/-- C3: the loop points the parse result exposes are the raw u32 values
    rebased by subtracting start first, and only then multiplied by the
    resampling factor: startLoop = (raw - start) * multiply, likewise
    endLoop, so they address the extracted buffer, not the shared blob. -/
theorem loop_points_rebased_before_scaling (data : Nat → Nat) (off threshold ip : Nat) :
    (parseShdrRecord data off threshold ip).1.startLoop =
      ((readU32 data (ip + 28) : Int) - (readU32 data (ip + 20) : Int)) *
        (if 0 < readU32 data (ip + 36)
         then ((adjustSampleData
            (sampleSlice data off (readU32 data (ip + 20)) (readU32 data (ip + 24)))
            (readU32 data (ip + 36)) threshold).2 : Int)
         else 1) ∧
    (parseShdrRecord data off threshold ip).1.endLoop =
      ((readU32 data (ip + 32) : Int) - (readU32 data (ip + 20) : Int)) *
        (if 0 < readU32 data (ip + 36)
         then ((adjustSampleData
            (sampleSlice data off (readU32 data (ip + 20)) (readU32 data (ip + 24)))
            (readU32 data (ip + 36)) threshold).2 : Int)
         else 1) := by
  by_cases h : 0 < readU32 data (ip + 36) <;> simp [parseShdrRecord, h]

/-- Doubling doubles the length. -/
theorem dupEach_length (l : List Int) : (dupEach l).length = 2 * l.length := by
  induction l with
  | nil => rfl
  | cons x xs ih => simp [dupEach, ih]; omega

/-- Every original sample appears twice consecutively in the doubled buffer. -/
theorem dupEach_get (l : List Int) (i : Nat) :
    (dupEach l).get? (2 * i) = l.get? i ∧ (dupEach l).get? (2 * i + 1) = l.get? i := by
  induction l generalizing i with
  | nil => simp [dupEach]
  | cons x xs ih =>
    cases i with
    | zero => simp [dupEach]
    | succ j =>
      have h2 : 2 * (j + 1) = 2 * j + 1 + 1 := by omega
      rw [h2]
      simpa [dupEach] using ih j

/-- C7: at sampleRate 11025 against threshold 22050 the resampler runs one
    doubling pass: the output buffer is dupEach of the input (twice the
    length, each sample twice consecutively), the multiply factor is 2, so
    the caller doubles sampleRate to 22050 and doubles both loop points; a
    rate already at or above the threshold is returned unmodified with
    multiply factor 1. -/
theorem resample_doubling_correct (sample : List Int) :
    adjustSampleData sample 11025 22050 = (dupEach sample, 2) ∧
    (dupEach sample).length = 2 * sample.length ∧
    (∀ i : Nat, (dupEach sample).get? (2 * i) = sample.get? i ∧
      (dupEach sample).get? (2 * i + 1) = sample.get? i) ∧
    11025 * (adjustSampleData sample 11025 22050).2 = 22050 ∧
    (∀ startLoop : Int,
      startLoop * ((adjustSampleData sample 11025 22050).2 : Int) = 2 * startLoop) ∧
    (∀ rate : Nat, 22050 ≤ rate → adjustSampleData sample rate 22050 = (sample, 1)) := by
  have h1 : adjustSampleData sample 11025 22050 = (dupEach sample, 2) := rfl
  refine ⟨h1, dupEach_length sample, dupEach_get sample, ?_, ?_, ?_⟩
  · rw [h1]
    rfl
  · intro startLoop
    rw [h1]
    ring
  · intro rate h
    unfold adjustSampleData
    have : 22050 - rate = 0 := by omega
    rw [this]
    rfl

/-- Witness for C7 at a concrete two-sample buffer. -/
theorem resample_doubling_correct_witness :
    adjustSampleData [3, -7] 11025 22050 = ([3, 3, -7, -7], 2) ∧
    adjustSampleData [3, -7] 22050 22050 = ([3, -7], 1) :=
  ⟨(resample_doubling_correct [3, -7]).1,
    (resample_doubling_correct [3, -7]).2.2.2.2.2 22050 (by decide)⟩

/-- A RIFF chunk descriptor: tag, payload size and payload offset. -/
structure Chunk where
  type : String
  size : Nat
  offset : Nat
deriving DecidableEq, Repr

/-- parseRiffChunk of part_000 after walking the sfbk payload (the walker
    itself lives in the RiffParser module, which is not under src, so the
    walked chunk list is taken as input here): demand exactly 3 chunks,
    then hand them to the rest of the decoder (INFO, sdta, pdta), here an
    arbitrary continuation. -/
def parseRiffChunkStep {α : Type} (chunkList : List Chunk)
    (rest : Chunk → Chunk → Chunk → Except String α) : Except String α :=
  match chunkList with
  | [c0, c1, c2] => rest c0 c1 c2
  | _ => Except.error "invalid sfbk structure"

/-- C8: a walked sfbk payload with any chunk count other than 3 makes the
    decoder fail with the structural error, whatever the rest of the decode
    would have produced: no partial result is ever returned. -/
theorem sfbk_chunk_count_structural_error {α : Type} (chunkList : List Chunk)
    (rest : Chunk → Chunk → Chunk → Except String α)
    (h : chunkList.length ≠ 3) :
    parseRiffChunkStep chunkList rest = Except.error "invalid sfbk structure" ∧
    ∀ r : α, parseRiffChunkStep chunkList rest ≠ Except.ok r := by
  have he : parseRiffChunkStep chunkList rest = Except.error "invalid sfbk structure" := by
    unfold parseRiffChunkStep
    split
    · simp at h
    · rfl
  exact ⟨he, fun r hr => by rw [he] at hr; cases hr⟩

/-- Witness for C8: a count of 2 under sfbk yields the structural error. -/
theorem sfbk_chunk_count_structural_error_witness :
    parseRiffChunkStep [⟨"LIST", 10, 0⟩, ⟨"LIST", 10, 18⟩]
      (fun _ _ _ => Except.ok (0 : Nat)) = Except.error "invalid sfbk structure" :=
  (sfbk_chunk_count_structural_error _ _ (by decide)).1

/-- Values a JS object of the zone resolver holds: a decoded generator or
    modulator value, or the array under the key unknown. -/
inductive JsVal where
  | gen (v : GenValue)
  | arr (vs : List GenValue)
deriving DecidableEq, Repr

/-- A JS object modelled with its insertion-order key list: assignment to an
    existing key updates it in place, assignment to a fresh key appends. -/
abbrev JsObj : Type := List (String × JsVal)

/-- JS property write obj[k] = v. -/
def jsObjSet (o : JsObj) (k : String) (v : JsVal) : JsObj :=
  if o.any (fun p => p.1 == k) then
    o.map (fun p => if p.1 == k then (k, v) else p)
  else o ++ [(k, v)]

/-- JS property read obj[k]. -/
def jsObjGet (o : JsObj) (k : String) : Option JsVal :=
  (o.find? (fun p => p.1 == k)).map (·.2)

/-- JS property-key coercion of a possibly undefined record type: an
    undefined key is coerced to the string "undefined". -/
def keyOf : Option String → String
  | some s => s
  | none => "undefined"

/-- The seed object of createBagModGen_: an empty unknown list and the
    default keyRange with lo 0 and hi 127. -/
def defaultModGen : JsObj :=
  [("unknown", JsVal.arr []), ("keyRange", JsVal.gen (GenValue.range 0 127))]

/-- modgen.unknown.push(info.value): fails (JS TypeError) if the key
    unknown no longer holds an array. -/
def pushUnknown (obj : JsObj) (v : GenValue) : Option JsObj :=
  match jsObjGet obj "unknown" with
  | some (JsVal.arr vs) => some (jsObjSet obj "unknown" (JsVal.arr (vs ++ [v])))
  | _ => none

/-- The merge loop of createBagModGen_, fuel-indexed with fuel indexEnd - i,
    which counts its iterations exactly: push each in-range record onto the
    sequence, then either push its value onto the unknown list (only when
    its type is the string "unknown") or assign it at the key its type
    coerces to. Reading past the record list is the JS TypeError, `none`. -/
def bagMergeLoop (zoneModGen : List GenRecord) (indexEnd : Nat) :
    Nat → Nat → JsObj → List GenRecord → Option (JsObj × List GenRecord)
  | 0, i, obj, seq => if i < indexEnd then none else some (obj, seq)
  | fuel + 1, i, obj, seq =>
    if i < indexEnd then
      match zoneModGen.get? i with
      | none => none
      | some info =>
        if info.type = some "unknown" then
          match pushUnknown obj info.value with
          | none => none
          | some obj2 => bagMergeLoop zoneModGen indexEnd fuel (i + 1) obj2 (seq ++ [info])
        else
          bagMergeLoop zoneModGen indexEnd fuel (i + 1)
            (jsObjSet obj (keyOf info.type) (JsVal.gen info.value)) (seq ++ [info])
    else some (obj, seq)

/-- createBagModGen_ of part_001. indexStart is an Option because the
    instrument-modulator caller reads it off a property instrument bags do
    not have: a JS for loop whose counter starts at undefined compares
    undefined < indexEnd, which is false, so the body never runs. -/
def createBagModGen_ (zoneModGen : List GenRecord) (indexStart : Option Nat)
    (indexEnd : Nat) : Option (JsObj × List GenRecord) :=
  match indexStart with
  | none => some (defaultModGen, [])
  | some s => bagMergeLoop zoneModGen indexEnd (indexEnd - s) s defaultModGen []

/-- C4 at its failing input: a zone whose generator range holds two records
    with the unknown codes 61 and 62. parseGenerator left their type
    undefined rather than the string "unknown", so the unknown branch of the merge
    branch never fires: the unknown list stays empty and both values land
    under the object key "undefined", the second overwriting the first,
    contradicting the claim that every unknown record accumulates. -/
theorem unknown_records_not_accumulated :
    createBagModGen_ [decodeGenerator 61 1 2, decodeGenerator 62 3 4] (some 0) 2 =
      some ([("unknown", JsVal.arr []),
             ("keyRange", JsVal.gen (GenValue.range 0 127)),
             ("undefined", JsVal.gen (GenValue.raw 62 1027 3 4))],
            [decodeGenerator 61 1 2, decodeGenerator 62 3 4]) ∧
    (decodeGenerator 61 1 2).type = none ∧
    (decodeGenerator 62 3 4).type = none := by decide

/-- C5 counterexample: the map a zone with no generator records resolves to
    is the seed object, which also carries the key unknown with an empty
    list, so it is not exactly the single-key map the claim states. -/
theorem empty_zone_default_map_counterexample :
    createBagModGen_ [] (some 0) 0 = some (defaultModGen, []) ∧
    defaultModGen ≠ ([("keyRange", JsVal.gen (GenValue.range 0 127))] : JsObj) := by
  decide

/-- C5 (amended): a zone whose generator index range is empty resolves to
    exactly the seed object, the empty unknown list together with the
    default keyRange of lo 0 and hi 127, and to an empty sequence. -/
theorem empty_zone_resolves_to_seed (gens : List GenRecord) (s e : Nat) (h : e ≤ s) :
    createBagModGen_ gens (some s) e = some (defaultModGen, []) := by
  have h0 : e - s = 0 := by omega
  show bagMergeLoop gens e (e - s) s defaultModGen [] = some (defaultModGen, [])
  rw [h0]
  unfold bagMergeLoop
  have hlt : ¬ s < e := by omega
  simp [hlt]

/-- Witness for the amended C5 at a concrete empty range. -/
theorem empty_zone_resolves_to_seed_witness :
    createBagModGen_ [decodeGenerator 43 0 127] (some 1) 1 = some (defaultModGen, []) :=
  empty_zone_resolves_to_seed [decodeGenerator 43 0 127] 1 1 (by decide)

/-- An ibag record as parseIbag builds it: only these two properties exist
    on the object. -/
structure InstrumentBag where
  instrumentGeneratorIndex : Nat
  instrumentModulatorIndex : Nat
deriving DecidableEq, Repr

/-- JS property access on an ibag record: any other property name, in
    particular presetModulatorIndex, reads as undefined. -/
def InstrumentBag.jsGet (b : InstrumentBag) : String → Option Nat
  | "instrumentGeneratorIndex" => some b.instrumentGeneratorIndex
  | "instrumentModulatorIndex" => some b.instrumentModulatorIndex
  | _ => none

/-- createInstrumentGenerator_ of part_001: merge the generator records of
    zone[index] from its instrumentGeneratorIndex up to that of the next bag (or
    the whole list length). A missing zone[index] is the JS TypeError,
    modelled by Option.bind. -/
def createInstrumentGenerator_ (zone : List InstrumentBag) (index : Nat)
    (instrumentZoneGenerator : List GenRecord) : Option (JsObj × List GenRecord) :=
  (zone.get? index).bind (fun bag =>
    createBagModGen_ instrumentZoneGenerator (bag.jsGet "instrumentGeneratorIndex")
      (match zone.get? (index + 1) with
       | some nb => nb.instrumentGeneratorIndex
       | none => instrumentZoneGenerator.length))

/-- createInstrumentModulator_ of part_001: its range start is read off the
    property presetModulatorIndex, which instrument bags do not carry, so
    the start is undefined and the merge loop never iterates. -/
def createInstrumentModulator_ (zone : List InstrumentBag) (index : Nat)
    (instrumentZoneModulator : List GenRecord) : Option (JsObj × List GenRecord) :=
  (zone.get? index).bind (fun bag =>
    createBagModGen_ instrumentZoneModulator (bag.jsGet "presetModulatorIndex")
      (match zone.get? (index + 1) with
       | some nb => nb.instrumentModulatorIndex
       | none => instrumentZoneModulator.length))

/-- One entry of the info array of an instrument. -/
structure ZoneInfo where
  generator : JsObj
  generatorSequence : List GenRecord
  modulator : JsObj
  modulatorSequence : List GenRecord
deriving DecidableEq, Repr

/-- One entry of the output of createInstrument. -/
structure InstrumentOut where
  name : String
  info : List ZoneInfo
deriving DecidableEq, Repr

/-- The inner bag loop of createInstrument, fuel-indexed with fuel
    bagIndexEnd - bagIndex, which counts its iterations exactly. -/
def zoneLoop (zone : List InstrumentBag) (gens mods : List GenRecord) (indexEnd : Nat) :
    Nat → Nat → List ZoneInfo → Option (List ZoneInfo)
  | 0, j, acc => if j < indexEnd then none else some acc
  | fuel + 1, j, acc =>
    if j < indexEnd then
      (createInstrumentGenerator_ zone j gens).bind (fun g =>
        (createInstrumentModulator_ zone j mods).bind (fun m =>
          zoneLoop zone gens mods indexEnd fuel (j + 1)
            (acc ++ [{ generator := g.1, generatorSequence := g.2,
                       modulator := m.1, modulatorSequence := m.2 }])))
    else some acc

/-- The bag range end of instrument i: the bag index of the next instrument, or
    the zone array length for the last instrument. -/
def nextBagIndex (zone : List InstrumentBag) : List Instrument → Nat
  | next :: _ => next.instrumentBagIndex
  | [] => zone.length

/-- createInstrument of part_001: for each instrument, resolve the zones of
    its bag range. -/
def createInstrument (zone : List InstrumentBag) (gens mods : List GenRecord) :
    List Instrument → Option (List InstrumentOut)
  | [] => some []
  | cur :: rest =>
    (zoneLoop zone gens mods (nextBagIndex zone rest)
        (nextBagIndex zone rest - cur.instrumentBagIndex)
        cur.instrumentBagIndex []).bind (fun zi =>
      (createInstrument zone gens mods rest).map (fun outs =>
        { name := cur.instrumentName, info := zi } :: outs))

/-- Whenever createInstrumentModulator_ returns at all, it returns the seed
    object and the empty sequence, since presetModulatorIndex is undefined
    on instrument bags. -/
theorem createInstrumentModulator_default (zone : List InstrumentBag) (j : Nat)
    (mods : List GenRecord) (r : JsObj × List GenRecord)
    (h : createInstrumentModulator_ zone j mods = some r) : r = (defaultModGen, []) := by
  unfold createInstrumentModulator_ at h
  cases hz : zone.get? j with
  | none => rw [hz, Option.none_bind] at h; cases h
  | some bag =>
    rw [hz, Option.some_bind] at h
    have hget : bag.jsGet "presetModulatorIndex" = none := rfl
    rw [hget] at h
    have hred : createBagModGen_ mods none
        (match zone.get? (j + 1) with
         | some nb => nb.instrumentModulatorIndex
         | none => mods.length) = some (defaultModGen, []) := rfl
    rw [hred] at h
    exact (Option.some.inj h).symm

/-- The bag loop preserves the property that every pushed zone has the seed
    modulator object and an empty modulator sequence. -/
theorem zoneLoop_modulator_default (zone : List InstrumentBag) (gens mods : List GenRecord)
    (indexEnd : Nat) :
    ∀ fuel j acc out, zoneLoop zone gens mods indexEnd fuel j acc = some out →
      (∀ zi ∈ acc, zi.modulator = defaultModGen ∧ zi.modulatorSequence = []) →
      ∀ zi ∈ out, zi.modulator = defaultModGen ∧ zi.modulatorSequence = [] := by
  intro fuel
  induction fuel with
  | zero =>
    intro j acc out h hacc
    unfold zoneLoop at h
    by_cases hj : j < indexEnd
    · simp [hj] at h
    · simp [hj] at h
      exact h ▸ hacc
  | succ f ih =>
    intro j acc out h hacc
    unfold zoneLoop at h
    by_cases hj : j < indexEnd
    · rw [if_pos hj] at h
      cases hg : createInstrumentGenerator_ zone j gens with
      | none => rw [hg, Option.none_bind] at h; cases h
      | some g =>
        rw [hg, Option.some_bind] at h
        cases hm : createInstrumentModulator_ zone j mods with
        | none => rw [hm, Option.none_bind] at h; cases h
        | some m =>
          rw [hm, Option.some_bind] at h
          have hm2 := createInstrumentModulator_default zone j mods m hm
          subst hm2
          refine ih (j + 1) _ out h ?_
          intro zi hzi
          rcases List.mem_append.mp hzi with hin | hin
          · exact hacc zi hin
          · rw [List.mem_singleton.mp hin]
            exact ⟨rfl, rfl⟩
    · rw [if_neg hj] at h
      exact (Option.some.inj h) ▸ hacc

/-- C10: in every instrument createInstrument produces, the resolved
    modulator object of every zone is exactly the seed default and its
    modulator sequence is empty, whatever imod records exist: the modulator range
    start is read from presetModulatorIndex, a property instrument bags
    never carry, so the merge loop never iterates. -/
theorem instrument_modulator_always_default (instrument : List Instrument)
    (zone : List InstrumentBag) (gens mods : List GenRecord)
    (out : List InstrumentOut) (h : createInstrument zone gens mods instrument = some out)
    (io : InstrumentOut) (hio : io ∈ out) (zi : ZoneInfo) (hzi : zi ∈ io.info) :
    zi.modulator = defaultModGen ∧ zi.modulatorSequence = [] := by
  induction instrument generalizing out with
  | nil =>
    unfold createInstrument at h
    cases h
    cases hio
  | cons cur rest ih =>
    unfold createInstrument at h
    cases hz : zoneLoop zone gens mods (nextBagIndex zone rest)
        (nextBagIndex zone rest - cur.instrumentBagIndex) cur.instrumentBagIndex [] with
    | none => rw [hz, Option.none_bind] at h; cases h
    | some ziList =>
      rw [hz, Option.some_bind] at h
      cases hrest : createInstrument zone gens mods rest with
      | none => rw [hrest, Option.map_none'] at h; cases h
      | some outs =>
        rw [hrest, Option.map_some'] at h
        cases h
        rcases List.mem_cons.mp hio with rfl | hin
        · exact zoneLoop_modulator_default zone gens mods _ _ _ _ _ hz
            (by intro zi hzi; cases hzi) zi hzi
        · exact ih outs hrest hin

/-- Witness for C10 at a concrete one-instrument, one-zone soundfont. -/
theorem instrument_modulator_always_default_witness :
    ({ generator := defaultModGen, generatorSequence := [],
       modulator := defaultModGen, modulatorSequence := [] } : ZoneInfo).modulator
        = defaultModGen ∧
    ({ generator := defaultModGen, generatorSequence := [],
       modulator := defaultModGen, modulatorSequence := [] } : ZoneInfo).modulatorSequence
        = ([] : List GenRecord) :=
  instrument_modulator_always_default
    [{ instrumentName := "a", instrumentBagIndex := 0 }]
    [{ instrumentGeneratorIndex := 0, instrumentModulatorIndex := 0 }] [] []
    [{ name := "a",
       info := [{ generator := defaultModGen, generatorSequence := [],
                  modulator := defaultModGen, modulatorSequence := [] }] }]
    (by decide)
    { name := "a",
      info := [{ generator := defaultModGen, generatorSequence := [],
                 modulator := defaultModGen, modulatorSequence := [] }] }
    (by decide)
    { generator := defaultModGen, generatorSequence := [],
      modulator := defaultModGen, modulatorSequence := [] }
    (by decide)

/-- Step-faithful transcription of the record-iteration while loops (while
    ip < size, read one w-byte record, ip += w): `none` means the fuel ran
    out with the loop still running, `some` returns the final offset. -/
def recordLoopSteps (w size : Nat) : Nat → Nat → Option Nat
  | 0, ip => if ip < size then none else some ip
  | fuel + 1, ip =>
    if ip < size then recordLoopSteps w size fuel (ip + w) else some ip

/-- Step-faithful transcription of the adjustSampleData while loop on the
    rate alone (while sampleRate < threshold, both double): `none` means
    the fuel ran out, `some` returns the multiply factor. -/
def adjustLoopSteps (threshold : Nat) : Nat → Nat → Option Nat
  | 0, rate => if rate < threshold then none else some 1
  | fuel + 1, rate =>
    if rate < threshold then (adjustLoopSteps threshold fuel (rate * 2)).map (· * 2)
    else some 1

/-- A record loop that advances by a positive width finishes within
    size - ip iterations. -/
theorem recordLoopSteps_isSome (w size : Nat) (hw : 0 < w) :
    ∀ fuel ip, size ≤ ip + fuel → (recordLoopSteps w size fuel ip).isSome := by
  intro fuel
  induction fuel with
  | zero =>
    intro ip hle
    unfold recordLoopSteps
    have : ¬ ip < size := by omega
    simp [this]
  | succ f ih =>
    intro ip hle
    unfold recordLoopSteps
    by_cases hip : ip < size
    · rw [if_pos hip]
      exact ih (ip + w) (by omega)
    · simp [hip]

/-- With enough fuel the doubling loop finishes and computes exactly the
    multiply factor the fuel-indexed adjustLoop returns. -/
theorem adjustLoopSteps_eq (threshold : Nat) :
    ∀ fuel rate (s : List Int), 0 < rate → threshold ≤ rate * 2 ^ fuel →
      adjustLoopSteps threshold fuel rate = some ((adjustLoop s rate threshold fuel).2) := by
  intro fuel
  induction fuel with
  | zero =>
    intro rate s hr hle
    unfold adjustLoopSteps adjustLoop
    have : ¬ rate < threshold := by simp at hle; omega
    simp [this]
  | succ f ih =>
    intro rate s hr hle
    unfold adjustLoopSteps adjustLoop
    by_cases hlt : rate < threshold
    · rw [if_pos hlt, if_pos hlt]
      have hle2 : threshold ≤ rate * 2 * 2 ^ f := by
        rw [pow_succ] at hle
        calc threshold ≤ rate * (2 ^ f * 2) := hle
          _ = rate * 2 * 2 ^ f := by ring
      rw [ih (rate * 2) (dupEach s) (by omega) hle2]
      rfl
    · rw [if_neg hlt, if_neg hlt]

/-- Repeated doubling of a positive rate reaches the threshold within
    threshold - rate doublings. -/
theorem doubling_fuel_sufficient (rate threshold : Nat) (hr : 0 < rate) :
    threshold ≤ rate * 2 ^ (threshold - rate) := by
  rcases le_or_lt threshold rate with hle | hlt
  · calc threshold ≤ rate := hle
      _ = rate * 1 := (Nat.mul_one rate).symm
      _ ≤ rate * 2 ^ (threshold - rate) :=
        Nat.mul_le_mul_left rate (Nat.one_le_two_pow)
  · have hm : threshold - rate + 1 ≤ 2 ^ (threshold - rate) :=
      Nat.lt_two_pow (threshold - rate)
    calc threshold = rate + (threshold - rate) := by omega
      _ ≤ rate + rate * (threshold - rate) := by
          have : threshold - rate ≤ rate * (threshold - rate) :=
            Nat.le_mul_of_pos_left _ hr
          omega
      _ = rate * (threshold - rate + 1) := by ring
      _ ≤ rate * 2 ^ (threshold - rate) := Nat.mul_le_mul_left rate hm

/-- C9: decoding terminates. Every record-iteration loop advances by its
    positive fixed width of its record, so it stops within size - ip steps, the
    fuel parseRecords runs on; and for every positive sampleRate the
    doubling loop of adjustSampleData stops within threshold - sampleRate
    steps and computes the multiply factor adjustSampleData returns — the
    fuel adjustSampleData runs on. Both call sites guard sampleRate > 0. -/
theorem decode_loops_terminate (s : List Int) (w ip size rate threshold : Nat)
    (hw : 0 < w) (hr : 0 < rate) :
    (recordLoopSteps w size (size - ip) ip).isSome ∧
    adjustLoopSteps threshold (threshold - rate) rate =
      some ((adjustSampleData s rate threshold).2) := by
  constructor
  · exact recordLoopSteps_isSome w size hw (size - ip) ip (by omega)
  · exact adjustLoopSteps_eq threshold (threshold - rate) rate s hr
      (doubling_fuel_sufficient rate threshold hr)

/-- Witness for C9 at a 4-byte record loop over an 8-byte chunk and the
    11025 Hz doubling against threshold 22050. -/
theorem decode_loops_terminate_witness :
    (recordLoopSteps 4 8 8 0).isSome ∧
    adjustLoopSteps 22050 11025 11025 = some ((adjustSampleData [] 11025 22050).2) :=
  decode_loops_terminate [] 4 0 8 11025 22050 (by decide) (by decide)
